import Mathlib

/-
Verification development for the forecast ensemble engine of the
Stock-Analysis repository.

Embedded sources:
  src/backend/services/prediction_service.py            (class PredictionService)
  src/prediction-service/services/prediction_service.py (class PredictionService)

Modelling conventions.
* Python floats are modelled as real numbers (exact arithmetic).
* `numpy` array operations never raise: `np.diff`, elementwise division,
  `np.std`, `np.mean`, `np.sqrt` are modelled as total functions on `List ℝ`
  (division by zero yields Lean's `x / 0 = 0` where numpy would yield inf/nan;
  no claim depends on that corner).  Plain Python float division `a / b` with
  `b = 0.0` raises `ZeroDivisionError`; the one such site (the
  `change_percent` computation, reached whenever `days > 0`) is modelled by an
  explicit error branch on `current_price = 0`.
* Python `round(x, 2)` is modelled as `round2` (round to nearest multiple of
  1/100; ties are immaterial to every claim).
* Dates are modelled as natural numbers counting days from an epoch that is a
  Monday, so `weekday(d) = d % 7` with 0 = Monday … 6 = Sunday, exactly
  Python's `datetime.weekday()` convention; `timedelta(days = k)` is `+ k`,
  and `strftime('%Y-%m-%d')` is dropped (ISO date strings are ordered exactly
  as the underlying day numbers).
* The three statistical fits (statsmodels `AutoReg`, sklearn
  `LinearRegression`, statsmodels `ARIMA`) are external library computations;
  each predictor's `try` body is represented by an oracle of type
  `Option (List ℝ)`: `some f` means the library fit-and-forecast returned the
  list `f`, `none` means it raised, in which case the `except` arm runs the
  repository's own `_simple_trend_prediction` fallback, which is embedded
  from source.
* The wall-clock `timestamp` and the static `model_info` strings are omitted
  from the response record.
* `hist = ticker.history(period="2y")` is external I/O: the close-price
  series and the last bar's date are taken as inputs of the embedded
  functions.
-/

/-- Python `l[-1]` on a float list (total model; every use site in the claims
has a nonempty list). -/
noncomputable def pyLast (l : List ℝ) : ℝ := l.getD (l.length - 1) 0

/-- Python slice `l[-k:]` for `k > 0`: when `k ≤ len(l)` this is the trailing
`k` elements, and when `k > len(l)` Python returns the whole list — both cases
are exactly `l.drop (l.length - k)` with truncated subtraction. -/
def pySliceLast (k : ℕ) (l : List ℝ) : List ℝ := l.drop (l.length - k)

/-- Python negative indexing `l[-k]` for `0 < k ≤ len(l)`: the element at
position `len(l) - k` (total model via `getD`). -/
noncomputable def pyIdxNeg (l : List ℝ) (k : ℕ) : ℝ := l.getD (l.length - k) 0

/-- Python `round(x, 2)`: round to the nearest multiple of 1/100. -/
noncomputable def round2 (x : ℝ) : ℝ := (round (100 * x) : ℤ) / 100

/-- Numpy `np.mean` of a float list. -/
noncomputable def npMean (l : List ℝ) : ℝ := l.sum / l.length

/-- Numpy `np.std` (population standard deviation):
`sqrt(mean((x - mean(x))^2))`. -/
noncomputable def npStd (l : List ℝ) : ℝ :=
  Real.sqrt (npMean (l.map fun x => (x - npMean l) ^ 2))

/-- The expression `np.diff(historical_prices) / historical_prices[:-1]` from
`_calculate_confidence_intervals`: elementwise
`(l[t+1] - l[t]) / l[t]`, one entry per consecutive pair. -/
noncomputable def returnsOf (l : List ℝ) : List ℝ :=
  (l.zip l.tail).map fun p => (p.2 - p.1) / p.1

/-- Embeds `_simple_trend_prediction(prices, days)` (backend lines 174–185,
service lines 200–211):
`recent_prices = prices[-10:]`,
`trend = (recent_prices[-1] - recent_prices[0]) / len(recent_prices)`,
and for `i in range(1, days + 1)` the prediction `prices[-1] + trend * i`. -/
noncomputable def simple_trend_prediction (prices : List ℝ) (days : ℕ) : List ℝ :=
  let recent_prices := pySliceLast 10 prices
  let trend := (pyLast recent_prices - recent_prices.getD 0 0) / (recent_prices.length : ℝ)
  (List.range days).map fun i : ℕ => pyLast prices + trend * ((i : ℝ) + 1)

/-- A predictor's `try/except` (e.g. `_predict_with_arima`): the statistical
fit-and-forecast is an external library call represented by the oracle
`fitResult`; `some forecast` is the `try` branch returning the library's
forecast list, `none` is any raised exception, answered by the `except`
branch's `_simple_trend_prediction` fallback. -/
noncomputable def predictor_run (fitResult : Option (List ℝ)) (prices : List ℝ)
    (days : ℕ) : List ℝ :=
  match fitResult with
  | some forecast => forecast
  | none => simple_trend_prediction prices days

/-- Oracles for the three statistical fits (AutoReg, LinearRegression, ARIMA),
in the order the pipeline consumes them. -/
structure PredictorOracles where
  ar : Option (List ℝ)
  lr : Option (List ℝ)
  arima : Option (List ℝ)

/-- Embeds backend `_calculate_confidence_intervals` (lines 187–201):
`volatility = np.std(np.diff(h) / h[:-1])`; for `i, pred` in
`enumerate(predictions)`, `uncertainty = volatility * np.sqrt(i+1) * pred` and
bounds `pred ∓ 1.96 * uncertainty`. -/
noncomputable def calculate_confidence_intervals
    (historical_prices predictions : List ℝ) : List (ℝ × ℝ) :=
  let volatility := npStd (returnsOf historical_prices)
  predictions.enum.map fun ip =>
    let uncertainty := volatility * Real.sqrt ((ip.1 : ℝ) + 1) * ip.2
    (ip.2 - 1.96 * uncertainty, ip.2 + 1.96 * uncertainty)

/-- Embeds the prediction-service `_calculate_confidence_intervals`
(lines 213–227), identical to the backend one except for the trailing
`* 0.1` scale factor on the uncertainty. -/
noncomputable def calculate_confidence_intervals_svc
    (historical_prices predictions : List ℝ) : List (ℝ × ℝ) :=
  let volatility := npStd (returnsOf historical_prices)
  predictions.enum.map fun ip =>
    let uncertainty := volatility * Real.sqrt ((ip.1 : ℝ) + 1) * ip.2 * 0.1
    (ip.2 - 1.96 * uncertainty, ip.2 + 1.96 * uncertainty)

/-- Accuracy metrics record (backend dict literal lines 209–213 and the
service's `AccuracyMetrics` pydantic model). -/
structure AccuracyMetrics where
  recent_volatility_percent : ℝ
  trend_direction : String
  data_points_used : ℕ

/-- Embeds `_calculate_accuracy_metrics(prices)` (backend lines 203–213,
service lines 229–239):
`recent_volatility = np.std(prices[-30:]) / np.mean(prices[-30:]) * 100`,
`trend_direction = "upward" if prices[-1] > prices[-30] else "downward"`. -/
noncomputable def calculate_accuracy_metrics (prices : List ℝ) : AccuracyMetrics :=
  let recent_volatility := npStd (pySliceLast 30 prices) / npMean (pySliceLast 30 prices) * 100
  { recent_volatility_percent := round2 recent_volatility
    trend_direction := if pyLast prices > pyIdxNeg prices 30 then "upward" else "downward"
    data_points_used := prices.length }

/-- The backend's inner weekend-skip loop
`while future_date.weekday() > 4: future_date += timedelta(days=1)`
(lines 59–60): a Saturday advances by 2 days, a Sunday by 1 day, any weekday
is left alone (the loop body runs at most twice). -/
def skipWeekendFwd (d : ℕ) : ℕ :=
  if d % 7 = 5 then d + 2 else if d % 7 = 6 then d + 1 else d

/-- Embeds the backend's future-date loop (lines 55–61):
`for i in range(1, days + 1)` take `last_date + timedelta(days=i)` and skip
forward past a weekend. -/
def backend_future_dates (last_date days : ℕ) : List ℕ :=
  (List.range days).map fun i => skipWeekendFwd (last_date + (i + 1))

/-- Embeds the collection loop of the service's `_generate_business_dates`
(lines 243–250): starting at `current`, repeatedly skip forward past a
weekend to the next business day `b` (the loop's non-collecting iterations,
at most two in a row), collect `b`, and continue from `b + 1`, until `need`
dates are collected. -/
def generate_business_dates_from : ℕ → ℕ → List ℕ
  | _, 0 => []
  | current, n + 1 =>
    let b := skipWeekendFwd current
    b :: generate_business_dates_from (b + 1) n

/-- Embeds the service's `_generate_business_dates(start_date, days)`
(lines 241–252): `current_date = start_date + timedelta(days=1)`, then walk
forward one day at a time collecting weekdays until `days` are collected. -/
def generate_business_dates (start_date days : ℕ) : List ℕ :=
  generate_business_dates_from (start_date + 1) days

/-- One per-step record of the response (backend dict literal lines 73–80,
service `PredictionData` model). -/
structure PredictionRecord where
  date : ℕ
  predicted_price : ℝ
  lower_bound : ℝ
  upper_bound : ℝ
  change_from_current : ℝ
  change_percent : ℝ

instance : Inhabited PredictionRecord := ⟨⟨0, 0, 0, 0, 0, 0⟩⟩

/-- Builds one per-step record exactly as backend lines 69–80 / service lines
65–76: the point forecast and both bounds are rounded to 2 decimals, and the
change fields are derived from the already-rounded `pred_price` and the
unrounded `current_price`. -/
noncomputable def mk_prediction_data (current_price : ℝ) (date : ℕ)
    (pred lo hi : ℝ) : PredictionRecord :=
  let pred_price := round2 pred
  { date
    predicted_price := pred_price
    lower_bound := round2 lo
    upper_bound := round2 hi
    change_from_current := round2 (pred_price - current_price)
    change_percent := round2 ((pred_price - current_price) / current_price * 100) }

/-- The ensemble loop (backend lines 39–46, service lines 42–49): for each
`i in range(days)`, `np.mean([ar[i], lr[i], arima[i]])`, and `np.mean` of a
three-element list is the sum divided by 3. -/
noncomputable def ensemble_predictions_of (o : PredictorOracles) (prices : List ℝ)
    (days : ℕ) : List ℝ :=
  (List.range days).map fun i =>
    ((predictor_run o.ar prices days).getD i 0
      + (predictor_run o.lr prices days).getD i 0
      + (predictor_run o.arima prices days).getD i 0) / 3

/-- The Python exceptions that appear in the embedded code paths. -/
inductive PyErr where
  | valueError (msg : String)
  | zeroDivisionError (msg : String)
  | exception (msg : String)

/-- Message of an exception, as Python `str(e)`. -/
def PyErr.msg : PyErr → String
  | .valueError m => m
  | .zeroDivisionError m => m
  | .exception m => m

/-- Response record (backend dict lines 85–96, service `PredictionResponse`);
the wall-clock timestamp and static `model_info` strings are omitted. -/
structure PredictionResult where
  symbol : String
  current_price : ℝ
  prediction_period : String
  predictions : List PredictionRecord
  accuracy_metrics : AccuracyMetrics

/-- The successful-path assembly of the backend `predict_prices` (lines
38–96): ensemble averaging, confidence intervals, future dates, per-step
records, accuracy metrics, response dict. -/
noncomputable def assemble_response (symbol : String) (days : ℕ)
    (prices : List ℝ) (last_date : ℕ) (o : PredictorOracles) : PredictionResult :=
  let ensemble_predictions := ensemble_predictions_of o prices days
  let confidence_intervals := calculate_confidence_intervals prices ensemble_predictions
  let future_dates := backend_future_dates last_date days
  let current_price := pyLast prices
  { symbol := symbol
    current_price := round2 current_price
    prediction_period := toString days ++ " days"
    predictions := (List.range days).map fun i =>
      mk_prediction_data current_price (future_dates.getD i 0)
        (ensemble_predictions.getD i 0)
        (confidence_intervals.getD i (0, 0)).1
        (confidence_intervals.getD i (0, 0)).2
    accuracy_metrics := calculate_accuracy_metrics prices }

/-- Body of the backend `predict_prices` `try:` block (lines 18–96).
The `if len(hist) < 50` check raises `ValueError` before any predictor runs.
The per-step assembly loop `for i, date in enumerate(future_dates)` with
guard `if i < len(ensemble_predictions)` runs exactly `days` times since both
lists have length `days`; its first iteration's `change_percent` division
raises `ZeroDivisionError` when `current_price` is `0` (the only raising
pure-Python arithmetic in the body), modelled by the explicit error branch. -/
noncomputable def predict_prices_core (symbol : String) (days : ℕ)
    (prices : List ℝ) (last_date : ℕ) (o : PredictorOracles) :
    Except PyErr PredictionResult :=
  if prices.length < 50 then
    .error (.valueError ("Insufficient historical data for " ++ symbol))
  else if 0 < days ∧ pyLast prices = 0 then
    .error (.zeroDivisionError "float division by zero")
  else
    .ok (assemble_response symbol days prices last_date o)

/-- Backend `predict_prices` (lines 16–99): the whole body runs inside
`try: ... except Exception as e: raise Exception(f"Error predicting prices
for {symbol}: {str(e)}")`, so every escaping exception — including the
insufficient-data `ValueError` — is re-raised as a generic `Exception`. -/
noncomputable def predict_prices (symbol : String) (days : ℕ) (prices : List ℝ)
    (last_date : ℕ) (o : PredictorOracles) : Except PyErr PredictionResult :=
  (predict_prices_core symbol days prices last_date o).mapError fun e =>
    .exception ("Error predicting prices for " ++ symbol ++ ": " ++ e.msg)

/-- Successful-path assembly of the service `predict_prices` (lines 41–94);
identical to the backend assembly except that dates come from
`_generate_business_dates` (the `future_dates[:days]` slice is the identity
since the list has length `days`), the confidence intervals carry the `0.1`
scale factor, and the period label reads `"… business days"`. -/
noncomputable def assemble_response_svc (symbol : String) (days : ℕ)
    (prices : List ℝ) (last_date : ℕ) (o : PredictorOracles) : PredictionResult :=
  let ensemble_predictions := ensemble_predictions_of o prices days
  let confidence_intervals := calculate_confidence_intervals_svc prices ensemble_predictions
  let future_dates := generate_business_dates last_date days
  let current_price := pyLast prices
  { symbol := symbol
    current_price := round2 current_price
    prediction_period := toString days ++ " business days"
    predictions := (List.range days).map fun i =>
      mk_prediction_data current_price (future_dates.getD i 0)
        (ensemble_predictions.getD i 0)
        (confidence_intervals.getD i (0, 0)).1
        (confidence_intervals.getD i (0, 0)).2
    accuracy_metrics := calculate_accuracy_metrics prices }

/-- Error structure of the service `predict_prices` `try:` body, as in the
backend core. -/
noncomputable def predict_prices_core_svc (symbol : String) (days : ℕ)
    (prices : List ℝ) (last_date : ℕ) (o : PredictorOracles) :
    Except PyErr PredictionResult :=
  if prices.length < 50 then
    .error (.valueError ("Insufficient historical data for " ++ symbol))
  else if 0 < days ∧ pyLast prices = 0 then
    .error (.zeroDivisionError "float division by zero")
  else
    .ok (assemble_response_svc symbol days prices last_date o)

/-- Service `predict_prices` (lines 19–98): wraps every escaping exception as
`Exception(f"Prediction failed for {symbol}: {str(e)}")`. -/
noncomputable def predict_prices_svc (symbol : String) (days : ℕ)
    (prices : List ℝ) (last_date : ℕ) (o : PredictorOracles) :
    Except PyErr PredictionResult :=
  (predict_prices_core_svc symbol days prices last_date o).mapError fun e =>
    .exception ("Prediction failed for " ++ symbol ++ ": " ++ e.msg)

/-- Formal reading of "the operation raises an `InsufficientDataError`": the
result is an error of the `ValueError` kind raised by the length precondition
check (the kind §7 of the specification names `InsufficientDataError`),
as opposed to the blanket-wrapped generic `Exception`. -/
def resultIsValueErrorKind (r : Except PyErr PredictionResult) : Prop :=
  match r with
  | .error (.valueError _) => True
  | _ => False

/-- Spec-side formulation (§4.2 step 2) of the daily returns, written with
explicit indices: `(price[t+1] - price[t]) / price[t]` for each of the first
`len - 1` positions `t`; to be compared with the source-side `returnsOf`. -/
noncomputable def spec_daily_returns (l : List ℝ) : List ℝ :=
  (List.range (l.length - 1)).map fun t : ℕ =>
    (l.getD (t + 1) 0 - l.getD t 0) / l.getD t 0

/-- Spec-side population standard deviation, written out as one formula;
to be compared with the source-side `npStd`. -/
noncomputable def spec_stddev (l : List ℝ) : ℝ :=
  Real.sqrt ((l.map fun r => (r - l.sum / l.length) ^ 2).sum / l.length)

/-- Spec-side uncertainty of forecast step `i` (§4.2 step 2, undamped form):
`volatility × sqrt(i+1) × ensemble[i]`, with `volatility` the standard
deviation of the daily returns over the full series. -/
noncomputable def spec_uncertainty (hist : List ℝ) (p : ℝ) (i : ℕ) : ℝ :=
  spec_stddev (spec_daily_returns hist) * Real.sqrt ((i : ℝ) + 1) * p

/-- List helper: indexing a `range`-driven map, the shape of every per-step
loop in the pipeline. -/
theorem getD_range_map {α : Type} (f : ℕ → α) (d : α) {n i : ℕ} (h : i < n) :
    ((List.range n).map f).getD i d = f i := by
  rw [List.getD_eq_getElem _ _ (by simpa using h)]
  simp

/-- List helper: `getD` through `drop`. -/
theorem getD_drop {α : Type} (l : List α) (n m : ℕ) (d : α) :
    (l.drop n).getD m d = l.getD (n + m) d := by
  simp [List.getD_eq_getElem?_getD, List.getElem?_drop]

/-- A trailing slice of length `k` has length `k` when the list is long
enough. -/
theorem length_pySliceLast (k : ℕ) (l : List ℝ) (h : k ≤ l.length) :
    (pySliceLast k l).length = k := by
  simp [pySliceLast]
  omega

/-- The last element of a trailing slice is the last element of the list. -/
theorem pyLast_pySliceLast (k : ℕ) (l : List ℝ) (h1 : 1 ≤ k) (h2 : k ≤ l.length) :
    pyLast (pySliceLast k l) = pyLast l := by
  unfold pyLast pySliceLast
  rw [List.length_drop, getD_drop]
  congr 1
  omega

/-- The first element of the trailing `k`-slice is the element `k` from the
end. -/
theorem getD_zero_pySliceLast (k : ℕ) (l : List ℝ) :
    (pySliceLast k l).getD 0 0 = l.getD (l.length - k) 0 := by
  unfold pySliceLast
  rw [getD_drop]
  simp

/-- The weekend-skip loop lands on a weekday, never moves backwards, and
moves at most two days forward. -/
theorem skipWeekendFwd_spec (d : ℕ) :
    skipWeekendFwd d % 7 < 5 ∧ d ≤ skipWeekendFwd d ∧ skipWeekendFwd d ≤ d + 2 := by
  unfold skipWeekendFwd
  split_ifs with h1 h2 <;> omega

/-- The service's business-date collection loop yields exactly `need` dates,
all weekdays, all at least `current`, in strictly increasing order. -/
theorem generate_business_dates_from_spec (need : ℕ) : ∀ current : ℕ,
    (generate_business_dates_from current need).length = need ∧
    (∀ x ∈ generate_business_dates_from current need, current ≤ x ∧ x % 7 < 5) ∧
    List.Chain' (· < ·) (generate_business_dates_from current need) := by
  induction need with
  | zero => intro c; simp [generate_business_dates_from]
  | succ n ih =>
    intro current
    obtain ⟨hb, hge, _⟩ := skipWeekendFwd_spec current
    obtain ⟨hlen, hmem, hchain⟩ := ih (skipWeekendFwd current + 1)
    refine ⟨by simp [generate_business_dates_from, hlen], ?_, ?_⟩
    · intro x hx
      simp only [generate_business_dates_from, List.mem_cons] at hx
      rcases hx with rfl | hx
      · exact ⟨hge, hb⟩
      · have h := hmem x hx
        exact ⟨by omega, h.2⟩
    · show List.Chain' (· < ·)
        (skipWeekendFwd current :: generate_business_dates_from (skipWeekendFwd current + 1) n)
      refine List.chain'_cons'.mpr ⟨?_, hchain⟩
      intro y hy
      have h := hmem y (List.mem_of_mem_head? hy)
      omega

/-- C1 — For every price series of at least 50 observations and every positive
horizon `days`, the returned forecast contains exactly `days` per-step
records, and their dates are strictly increasing with every date falling on a
business day (weekday Monday through Friday).  The prediction-service
`_generate_business_dates` satisfies all three properties for every start
date and horizon; the backend's inline date loop, however, duplicates the
following Monday when the series ends on a Friday and the horizon crosses the
weekend: with the last date a Friday (day 4) and `days = 2`, it emits the same
Monday (day 7) twice, so its dates are NOT strictly increasing (they are
business days, but only weakly increasing). -/
theorem C1_business_day_dates :
    (∀ start_date days : ℕ,
        (generate_business_dates start_date days).length = days ∧
        List.Chain' (· < ·) (generate_business_dates start_date days) ∧
        ∀ x ∈ generate_business_dates start_date days, x % 7 < 5) ∧
    backend_future_dates 4 2 = [7, 7] ∧
    ¬ List.Chain' (· < ·) (backend_future_dates 4 2) ∧
    (∀ x ∈ backend_future_dates 4 2, x % 7 < 5) := by
  refine ⟨?_, by decide, ?_, by decide⟩
  case refine_2 =>
    rw [show backend_future_dates 4 2 = [7, 7] from by decide]
    simp [List.chain'_cons]
  intro s d
  obtain ⟨h1, h2, h3⟩ := generate_business_dates_from_spec d (s + 1)
  exact ⟨h1, h3, fun x hx => (h2 x hx).2⟩

/-- The trend fallback always yields exactly `days` predictions. -/
theorem simple_trend_prediction_length (prices : List ℝ) (days : ℕ) :
    (simple_trend_prediction prices days).length = days := by
  simp [simple_trend_prediction]

/-- Closed form of the trend fallback for series of at least 10 observations:
step `i+1` (1-indexed) is `prices[-1] + (prices[-1] - prices[-10]) / 10 * (i+1)`. -/
theorem simple_trend_prediction_getD (prices : List ℝ) (days i : ℕ)
    (h10 : 10 ≤ prices.length) (hi : i < days) :
    (simple_trend_prediction prices days).getD i 0
      = pyLast prices
        + (pyLast prices - prices.getD (prices.length - 10) 0) / 10 * ((i : ℝ) + 1) := by
  have hst : simple_trend_prediction prices days
      = (List.range days).map fun i : ℕ =>
          pyLast prices
            + (pyLast (pySliceLast 10 prices) - (pySliceLast 10 prices).getD 0 0)
              / ((pySliceLast 10 prices).length : ℝ) * ((i : ℝ) + 1) := rfl
  rw [hst, getD_range_map _ _ hi,
      pyLast_pySliceLast 10 prices (by omega) h10,
      getD_zero_pySliceLast,
      length_pySliceLast 10 prices h10]
  norm_num

/-- Successful run of the backend pipeline: with at least 50 observations and
a nonzero current price nothing raises, and the result is the assembled
response. -/
theorem predict_prices_eq_ok (symbol : String) (days : ℕ) (prices : List ℝ)
    (last_date : ℕ) (o : PredictorOracles)
    (h50 : 50 ≤ prices.length) (hcur : pyLast prices ≠ 0) :
    predict_prices symbol days prices last_date o
      = .ok (assemble_response symbol days prices last_date o) := by
  unfold predict_prices predict_prices_core
  rw [if_neg (by omega), if_neg (by simp [hcur])]
  rfl

/-- Successful run of the service pipeline, as for the backend. -/
theorem predict_prices_svc_eq_ok (symbol : String) (days : ℕ) (prices : List ℝ)
    (last_date : ℕ) (o : PredictorOracles)
    (h50 : 50 ≤ prices.length) (hcur : pyLast prices ≠ 0) :
    predict_prices_svc symbol days prices last_date o
      = .ok (assemble_response_svc symbol days prices last_date o) := by
  unfold predict_prices_svc predict_prices_core_svc
  rw [if_neg (by omega), if_neg (by simp [hcur])]
  rfl

/-- The assembled backend response always carries exactly `days` per-step
records. -/
theorem assemble_response_predictions_length (symbol : String) (days : ℕ)
    (prices : List ℝ) (last_date : ℕ) (o : PredictorOracles) :
    (assemble_response symbol days prices last_date o).predictions.length = days := by
  simp [assemble_response]

/-- Evaluation helper for witnesses: the last of 50 copies of 100. -/
theorem pyLast_replicate_50 : pyLast (List.replicate 50 (100 : ℝ)) = 100 := by
  unfold pyLast
  rw [List.getD_eq_getElem _ _ (by simp)]
  exact List.getElem_replicate ..

/-- C2 — For every series of at least 50 observations, if any one predictor's
fit or forecast step raises (oracle `none`), that predictor's output equals
exactly the deterministic trend fallback; step `i` (1-indexed) of the
fallback is `series[-1] + ((series[-1] - series[-10]) / 10) * i`; the
substitution is a total function (it never raises); and the overall forecast
still completes with a full response of `days` steps (here with every
predictor failed; `series[-1] ≠ 0` per the PriceSeries data model of positive
prices — a zero current price is the separate `ZeroDivisionError` path). -/
theorem C2_fallback_policy (prices : List ℝ) (days : ℕ)
    (fitResult : Option (List ℝ)) (symbol : String) (last_date : ℕ)
    (h50 : 50 ≤ prices.length) (hfail : fitResult = none)
    (hcur : pyLast prices ≠ 0) :
    predictor_run fitResult prices days = simple_trend_prediction prices days ∧
    (simple_trend_prediction prices days).length = days ∧
    (∀ i, i < days → (simple_trend_prediction prices days).getD i 0
        = pyLast prices
          + (pyLast prices - prices.getD (prices.length - 10) 0) / 10 * ((i : ℝ) + 1)) ∧
    predict_prices symbol days prices last_date ⟨none, none, none⟩
      = .ok (assemble_response symbol days prices last_date ⟨none, none, none⟩) ∧
    (assemble_response symbol days prices last_date ⟨none, none, none⟩).predictions.length
      = days := by
  subst hfail
  exact ⟨rfl, simple_trend_prediction_length ..,
    fun i hi => simple_trend_prediction_getD prices days i (by omega) hi,
    predict_prices_eq_ok symbol days prices last_date _ h50 hcur,
    assemble_response_predictions_length ..⟩

/-- Witness for C2 at a concrete 50-point series with horizon 3. -/
theorem C2_fallback_policy_witness :
    50 ≤ (List.replicate 50 (100 : ℝ)).length ∧
    pyLast (List.replicate 50 (100 : ℝ)) ≠ 0 ∧
    (predictor_run none (List.replicate 50 (100 : ℝ)) 3
        = simple_trend_prediction (List.replicate 50 (100 : ℝ)) 3 ∧
      (simple_trend_prediction (List.replicate 50 (100 : ℝ)) 3).length = 3 ∧
      (∀ i, i < 3 →
        (simple_trend_prediction (List.replicate 50 (100 : ℝ)) 3).getD i 0
          = pyLast (List.replicate 50 (100 : ℝ))
            + (pyLast (List.replicate 50 (100 : ℝ))
                - (List.replicate 50 (100 : ℝ)).getD ((List.replicate 50 (100 : ℝ)).length - 10) 0)
              / 10 * ((i : ℝ) + 1)) ∧
      predict_prices "AAPL" 3 (List.replicate 50 (100 : ℝ)) 0 ⟨none, none, none⟩
        = .ok (assemble_response "AAPL" 3 (List.replicate 50 (100 : ℝ)) 0 ⟨none, none, none⟩) ∧
      (assemble_response "AAPL" 3 (List.replicate 50 (100 : ℝ)) 0
          ⟨none, none, none⟩).predictions.length = 3) :=
  ⟨by simp, by simp only [pyLast_replicate_50]; norm_num,
    C2_fallback_policy (List.replicate 50 (100 : ℝ)) 3 none "AAPL" 0
      (by simp) rfl (by simp only [pyLast_replicate_50]; norm_num)⟩

/-- Extraction of the `i`-th backend confidence interval from the
`enumerate` loop. -/
theorem calculate_confidence_intervals_getD (hist preds : List ℝ) (i : ℕ)
    (hi : i < preds.length) :
    (calculate_confidence_intervals hist preds).getD i (0, 0)
      = (preds.getD i 0
           - 1.96 * (npStd (returnsOf hist) * Real.sqrt ((i : ℝ) + 1) * preds.getD i 0),
         preds.getD i 0
           + 1.96 * (npStd (returnsOf hist) * Real.sqrt ((i : ℝ) + 1) * preds.getD i 0)) := by
  unfold calculate_confidence_intervals
  rw [List.getD_eq_getElem _ _ (by simpa using hi), List.getD_eq_getElem _ _ hi]
  simp [List.getElem_enum]

/-- Extraction of the `i`-th service confidence interval (with the `0.1`
scale factor). -/
theorem calculate_confidence_intervals_svc_getD (hist preds : List ℝ) (i : ℕ)
    (hi : i < preds.length) :
    (calculate_confidence_intervals_svc hist preds).getD i (0, 0)
      = (preds.getD i 0
           - 1.96 * (npStd (returnsOf hist) * Real.sqrt ((i : ℝ) + 1) * preds.getD i 0 * 0.1),
         preds.getD i 0
           + 1.96 * (npStd (returnsOf hist) * Real.sqrt ((i : ℝ) + 1) * preds.getD i 0 * 0.1)) := by
  unfold calculate_confidence_intervals_svc
  rw [List.getD_eq_getElem _ _ (by simpa using hi), List.getD_eq_getElem _ _ hi]
  simp [List.getElem_enum]

/-- The source's zip-with-tail daily-returns list equals the spec's indexed
formula. -/
theorem returnsOf_eq_formula (l : List ℝ) : returnsOf l = spec_daily_returns l := by
  unfold spec_daily_returns
  apply List.ext_getElem
  · simp only [returnsOf, List.length_map, List.length_zip, List.length_tail,
      List.length_range]
    omega
  · intro i h1 h2
    have hlen : i < l.length - 1 := by simpa using h2
    simp only [returnsOf, List.getElem_map, List.getElem_zip, List.getElem_range,
      List.getElem_tail]
    rw [List.getD_eq_getElem _ _ (by omega), List.getD_eq_getElem _ _ (by omega)]

/-- Numpy's standard deviation written out as one formula. -/
theorem npStd_eq (l : List ℝ) :
    npStd l = Real.sqrt ((l.map fun r => (r - l.sum / l.length) ^ 2).sum / l.length) := by
  unfold npStd npMean
  rw [List.length_map]

/-- The source's `np.std` is the spec's standard deviation. -/
theorem npStd_eq_spec_stddev (l : List ℝ) : npStd l = spec_stddev l := npStd_eq l

/-- C3 — For every forecast step `i` (0-indexed), the confidence bounds equal
`ensemble[i] ± 1.96 × uncertainty`, where
`uncertainty = volatility × sqrt(i+1) × ensemble[i]` in the backend and the
same quantity scaled by the fixed `0.1` damping factor in the
prediction-service, and `volatility` is the population standard deviation of
the daily returns `(price[t+1] - price[t]) / price[t]` computed over the full
input series. -/
theorem C3_confidence_interval_formula (hist preds : List ℝ) (i : ℕ)
    (hi : i < preds.length) :
    (calculate_confidence_intervals hist preds).getD i (0, 0)
      = (preds.getD i 0 - 1.96 * spec_uncertainty hist (preds.getD i 0) i,
         preds.getD i 0 + 1.96 * spec_uncertainty hist (preds.getD i 0) i) ∧
    (calculate_confidence_intervals_svc hist preds).getD i (0, 0)
      = (preds.getD i 0 - 1.96 * (spec_uncertainty hist (preds.getD i 0) i * 0.1),
         preds.getD i 0 + 1.96 * (spec_uncertainty hist (preds.getD i 0) i * 0.1)) := by
  have hvol : npStd (returnsOf hist) = spec_stddev (spec_daily_returns hist) := by
    rw [returnsOf_eq_formula]
    exact npStd_eq_spec_stddev _
  constructor
  · rw [calculate_confidence_intervals_getD hist preds i hi, hvol]
    rfl
  · rw [calculate_confidence_intervals_svc_getD hist preds i hi, hvol]
    rfl

/-- Witness for C3 at a concrete two-point history, one prediction, step 0. -/
theorem C3_confidence_interval_formula_witness :
    0 < ([5] : List ℝ).length ∧
    ((calculate_confidence_intervals [1, 2] [5]).getD 0 (0, 0)
       = (([5] : List ℝ).getD 0 0 - 1.96 * spec_uncertainty [1, 2] (([5] : List ℝ).getD 0 0) 0,
          ([5] : List ℝ).getD 0 0 + 1.96 * spec_uncertainty [1, 2] (([5] : List ℝ).getD 0 0) 0) ∧
     (calculate_confidence_intervals_svc [1, 2] [5]).getD 0 (0, 0)
       = (([5] : List ℝ).getD 0 0
            - 1.96 * (spec_uncertainty [1, 2] (([5] : List ℝ).getD 0 0) 0 * 0.1),
          ([5] : List ℝ).getD 0 0
            + 1.96 * (spec_uncertainty [1, 2] (([5] : List ℝ).getD 0 0) 0 * 0.1))) :=
  ⟨by decide, C3_confidence_interval_formula [1, 2] [5] 0 (by decide)⟩

/-- Volatility of the concrete history `[1, 2, 1]`: the daily returns are
`[1, -1/2]`, whose population standard deviation is `3/4`. -/
theorem npStd_returns_121 : npStd (returnsOf [1, 2, 1]) = 3 / 4 := by
  have h1 : returnsOf [(1 : ℝ), 2, 1] = [1, -(1 / 2)] := by
    norm_num [returnsOf]
  have h2 : ((([1, -(1 / 2)] : List ℝ).map fun r =>
        (r - ([1, -(1 / 2)] : List ℝ).sum / (([1, -(1 / 2)] : List ℝ).length : ℝ)) ^ 2).sum
      / (([1, -(1 / 2)] : List ℝ).length : ℝ)) = 9 / 16 := by
    norm_num
  rw [h1, npStd_eq, h2, show (9 : ℝ) / 16 = (3 / 4) ^ 2 by norm_num]
  exact Real.sqrt_sq (by norm_num)

/-- C4 counterexample — the claim "uncertainty (and hence the interval width)
increases with the step index; at minimum, width at a later step is at least
the width at an earlier step when the ensemble predictions have constant
sign" is false on the code: with history `[1, 2, 1]` (volatility `3/4 > 0`)
and ensemble predictions `[100, 1]` (both strictly positive, so of constant
sign), the backend interval width at step 1 is `3.92·(3/4)·√2·1 ≈ 4.16`,
strictly below the width `3.92·(3/4)·1·100 = 294` at step 0. -/
theorem C4_counterexample :
    ((calculate_confidence_intervals [1, 2, 1] [100, 1]).getD 1 (0, 0)).2
        - ((calculate_confidence_intervals [1, 2, 1] [100, 1]).getD 1 (0, 0)).1
      < ((calculate_confidence_intervals [1, 2, 1] [100, 1]).getD 0 (0, 0)).2
        - ((calculate_confidence_intervals [1, 2, 1] [100, 1]).getD 0 (0, 0)).1 := by
  rw [calculate_confidence_intervals_getD _ _ 1 (by norm_num),
      calculate_confidence_intervals_getD _ _ 0 (by norm_num),
      npStd_returns_121]
  have hg1 : (([100, 1] : List ℝ).getD 1 0) = 1 := rfl
  have hg0 : (([100, 1] : List ℝ).getD 0 0) = 100 := rfl
  rw [hg1, hg0]
  have h2 : Real.sqrt ((1 : ℕ) + (1 : ℝ)) < 2 := by
    rw [show ((1 : ℕ) + (1 : ℝ)) = 2 by norm_num]
    exact (Real.sqrt_lt' (by norm_num)).mpr (by norm_num)
  have h1 : Real.sqrt ((0 : ℕ) + (1 : ℝ)) = 1 := by
    rw [show ((0 : ℕ) + (1 : ℝ)) = 1 by norm_num]
    exact Real.sqrt_one
  rw [h1]
  dsimp only
  norm_num at h2 ⊢
  nlinarith [h2, Real.sqrt_nonneg (2 : ℝ)]

/-- C4 (amended) — in both implementations the interval width
`upper - lower` at step `i` is `2 × 1.96 × volatility × sqrt(i+1) ×
ensemble[i]` (times `0.1` in the service), so it is non-decreasing from step
`i` to step `j > i` provided `0 ≤ ensemble[i] ≤ ensemble[j]`; constant sign
alone does not suffice (see the counterexample). -/
theorem C4_width_monotone (hist preds : List ℝ) (i j : ℕ)
    (hij : i < j) (hj : j < preds.length)
    (hpi : 0 ≤ preds.getD i 0) (hmono : preds.getD i 0 ≤ preds.getD j 0) :
    ((calculate_confidence_intervals hist preds).getD i (0, 0)).2
        - ((calculate_confidence_intervals hist preds).getD i (0, 0)).1
      ≤ ((calculate_confidence_intervals hist preds).getD j (0, 0)).2
        - ((calculate_confidence_intervals hist preds).getD j (0, 0)).1 ∧
    ((calculate_confidence_intervals_svc hist preds).getD i (0, 0)).2
        - ((calculate_confidence_intervals_svc hist preds).getD i (0, 0)).1
      ≤ ((calculate_confidence_intervals_svc hist preds).getD j (0, 0)).2
        - ((calculate_confidence_intervals_svc hist preds).getD j (0, 0)).1 := by
  have hi : i < preds.length := lt_trans hij hj
  have hvol : 0 ≤ npStd (returnsOf hist) := Real.sqrt_nonneg _
  have hsq : Real.sqrt ((i : ℝ) + 1) ≤ Real.sqrt ((j : ℝ) + 1) := by
    apply Real.sqrt_le_sqrt
    exact_mod_cast Nat.add_le_add_right (le_of_lt hij) 1
  have hsqn : (0 : ℝ) ≤ Real.sqrt ((i : ℝ) + 1) := Real.sqrt_nonneg _
  have hu : npStd (returnsOf hist) * Real.sqrt ((i : ℝ) + 1) * preds.getD i 0
      ≤ npStd (returnsOf hist) * Real.sqrt ((j : ℝ) + 1) * preds.getD j 0 :=
    mul_le_mul (mul_le_mul le_rfl hsq hsqn hvol) hmono hpi
      (mul_nonneg hvol (hsqn.trans hsq))
  constructor
  · rw [calculate_confidence_intervals_getD hist preds i hi,
        calculate_confidence_intervals_getD hist preds j hj]
    dsimp only
    nlinarith [hu]
  · rw [calculate_confidence_intervals_svc_getD hist preds i hi,
        calculate_confidence_intervals_svc_getD hist preds j hj]
    dsimp only
    nlinarith [hu]

/-- Witness for the amended C4 at history `[1, 2]`, predictions `[0, 0]`,
steps 0 and 1. -/
theorem C4_width_monotone_witness :
    (0 : ℕ) < 1 ∧ 1 < ([0, 0] : List ℝ).length ∧
    (0 : ℝ) ≤ ([0, 0] : List ℝ).getD 0 0 ∧
    ([0, 0] : List ℝ).getD 0 0 ≤ ([0, 0] : List ℝ).getD 1 0 ∧
    (((calculate_confidence_intervals [1, 2] [0, 0]).getD 0 (0, 0)).2
        - ((calculate_confidence_intervals [1, 2] [0, 0]).getD 0 (0, 0)).1
      ≤ ((calculate_confidence_intervals [1, 2] [0, 0]).getD 1 (0, 0)).2
        - ((calculate_confidence_intervals [1, 2] [0, 0]).getD 1 (0, 0)).1 ∧
    ((calculate_confidence_intervals_svc [1, 2] [0, 0]).getD 0 (0, 0)).2
        - ((calculate_confidence_intervals_svc [1, 2] [0, 0]).getD 0 (0, 0)).1
      ≤ ((calculate_confidence_intervals_svc [1, 2] [0, 0]).getD 1 (0, 0)).2
        - ((calculate_confidence_intervals_svc [1, 2] [0, 0]).getD 1 (0, 0)).1) :=
  ⟨by decide, by decide, by simp [List.getD], by simp [List.getD],
    C4_width_monotone [1, 2] [0, 0] 0 1 (by decide) (by decide)
      (by simp [List.getD]) (by simp [List.getD])⟩

/-- C5 counterexample — the claim "the forecast operation raises an
`InsufficientDataError`" is false as observed by the caller: at a concrete
49-point series the escaping error is the blanket-wrapped generic
`Exception`, not the `ValueError` kind raised by the precondition check
(which §7 of the specification calls `InsufficientDataError`). -/
theorem C5_counterexample :
    predict_prices "AAPL" 5 (List.replicate 49 (100 : ℝ)) 0 ⟨none, none, none⟩
      = .error (.exception
          "Error predicting prices for AAPL: Insufficient historical data for AAPL")
    ∧ ¬ resultIsValueErrorKind
        (predict_prices "AAPL" 5 (List.replicate 49 (100 : ℝ)) 0 ⟨none, none, none⟩) := by
  have h : predict_prices "AAPL" 5 (List.replicate 49 (100 : ℝ)) 0 ⟨none, none, none⟩
      = .error (.exception
          "Error predicting prices for AAPL: Insufficient historical data for AAPL") := by
    unfold predict_prices predict_prices_core
    rw [if_pos (by simp)]
    rfl
  refine ⟨h, ?_⟩
  rw [h]
  intro hk
  simp [resultIsValueErrorKind] at hk

/-- C5 (amended) — for every series with fewer than 50 observations, both
pipelines raise before any predictor is invoked (the result does not depend
on the predictor oracles), but the insufficient-data `ValueError` is caught
by the function's own blanket `except` and re-raised as a generic
`Exception` whose message embeds the original insufficient-data text. -/
theorem C5_insufficient_data (symbol : String) (days : ℕ) (prices : List ℝ)
    (last_date : ℕ) (o : PredictorOracles) (h : prices.length < 50) :
    predict_prices symbol days prices last_date o
      = .error (.exception ("Error predicting prices for " ++ symbol ++ ": "
          ++ ("Insufficient historical data for " ++ symbol))) ∧
    predict_prices_svc symbol days prices last_date o
      = .error (.exception ("Prediction failed for " ++ symbol ++ ": "
          ++ ("Insufficient historical data for " ++ symbol))) := by
  unfold predict_prices predict_prices_core predict_prices_svc predict_prices_core_svc
  rw [if_pos h, if_pos h]
  exact ⟨rfl, rfl⟩

/-- Witness for the amended C5 at a concrete 10-point series. -/
theorem C5_insufficient_data_witness :
    (List.replicate 10 (1 : ℝ)).length < 50 ∧
    (predict_prices "AAPL" 7 (List.replicate 10 (1 : ℝ)) 3 ⟨none, none, none⟩
      = .error (.exception ("Error predicting prices for " ++ "AAPL" ++ ": "
          ++ ("Insufficient historical data for " ++ "AAPL"))) ∧
    predict_prices_svc "AAPL" 7 (List.replicate 10 (1 : ℝ)) 3 ⟨none, none, none⟩
      = .error (.exception ("Prediction failed for " ++ "AAPL" ++ ": "
          ++ ("Insufficient historical data for " ++ "AAPL")))) :=
  ⟨by simp, C5_insufficient_data "AAPL" 7 (List.replicate 10 (1 : ℝ)) 3
    ⟨none, none, none⟩ (by simp)⟩

/-- C6 counterexample — the claim that an upstream `InsufficientDataError`
"propagates to the caller as that error kind (distinguishable from other
failures)" and that the wrapped error "carries the symbol and horizon" is
false at a concrete short input: the surfaced error is the same generic
`Exception` kind as any other failure, and changing the horizon from 7 to 9
leaves the surfaced error identical, so no horizon context is carried. -/
theorem C6_counterexample :
    predict_prices "MSFT" 7 (List.replicate 30 (50 : ℝ)) 3 ⟨none, none, none⟩
      = .error (.exception
          "Error predicting prices for MSFT: Insufficient historical data for MSFT")
    ∧ ¬ resultIsValueErrorKind
        (predict_prices "MSFT" 7 (List.replicate 30 (50 : ℝ)) 3 ⟨none, none, none⟩)
    ∧ predict_prices "MSFT" 9 (List.replicate 30 (50 : ℝ)) 3 ⟨none, none, none⟩
      = predict_prices "MSFT" 7 (List.replicate 30 (50 : ℝ)) 3 ⟨none, none, none⟩ := by
  have h : predict_prices "MSFT" 7 (List.replicate 30 (50 : ℝ)) 3 ⟨none, none, none⟩
      = .error (.exception
          "Error predicting prices for MSFT: Insufficient historical data for MSFT") := by
    unfold predict_prices predict_prices_core
    rw [if_pos (by simp)]
    rfl
  have h9 : predict_prices "MSFT" 9 (List.replicate 30 (50 : ℝ)) 3 ⟨none, none, none⟩
      = .error (.exception
          "Error predicting prices for MSFT: Insufficient historical data for MSFT") := by
    unfold predict_prices predict_prices_core
    rw [if_pos (by simp)]
    rfl
  refine ⟨h, ?_, h9.trans h.symm⟩
  rw [h]
  intro hk
  simp [resultIsValueErrorKind] at hk

/-- C6 (amended) — neither pipeline surfaces a distinguishable error kind:
every error that escapes is the single generic `Exception` kind whose
message is the fixed per-pipeline prefix with the symbol followed by the
original exception's message; the horizon is not part of the context. -/
theorem C6_error_wrapping (symbol : String) (days : ℕ) (prices : List ℝ)
    (last_date : ℕ) (o : PredictorOracles) :
    (∀ e, predict_prices symbol days prices last_date o = .error e →
      ∃ m, e = .exception ("Error predicting prices for " ++ symbol ++ ": " ++ m)) ∧
    (∀ e, predict_prices_svc symbol days prices last_date o = .error e →
      ∃ m, e = .exception ("Prediction failed for " ++ symbol ++ ": " ++ m)) := by
  constructor
  · intro e he
    unfold predict_prices at he
    cases hcore : predict_prices_core symbol days prices last_date o with
    | ok r => rw [hcore] at he; exact absurd he (by simp [Except.mapError])
    | error err =>
      rw [hcore] at he
      simp only [Except.mapError] at he
      exact ⟨err.msg, (Except.error.injEq .. ▸ he).symm⟩
  · intro e he
    unfold predict_prices_svc at he
    cases hcore : predict_prices_core_svc symbol days prices last_date o with
    | ok r => rw [hcore] at he; exact absurd he (by simp [Except.mapError])
    | error err =>
      rw [hcore] at he
      simp only [Except.mapError] at he
      exact ⟨err.msg, (Except.error.injEq .. ▸ he).symm⟩

/-- Extraction of the `i`-th ensemble entry from the averaging loop. -/
theorem ensemble_predictions_of_getD (o : PredictorOracles) (prices : List ℝ)
    (days i : ℕ) (hi : i < days) :
    (ensemble_predictions_of o prices days).getD i 0
      = ((predictor_run o.ar prices days).getD i 0
          + (predictor_run o.lr prices days).getD i 0
          + (predictor_run o.arima prices days).getD i 0) / 3 := by
  unfold ensemble_predictions_of
  exact getD_range_map _ _ hi

/-- Extraction of the `i`-th per-step record from the assembled backend
response. -/
theorem assemble_response_predictions_getD (symbol : String) (days : ℕ)
    (prices : List ℝ) (last_date : ℕ) (o : PredictorOracles) (i : ℕ)
    (hi : i < days) :
    (assemble_response symbol days prices last_date o).predictions.getD i default
      = mk_prediction_data (pyLast prices)
          ((backend_future_dates last_date days).getD i 0)
          ((ensemble_predictions_of o prices days).getD i 0)
          ((calculate_confidence_intervals prices
              (ensemble_predictions_of o prices days)).getD i (0, 0)).1
          ((calculate_confidence_intervals prices
              (ensemble_predictions_of o prices days)).getD i (0, 0)).2 := by
  unfold assemble_response
  exact getD_range_map _ _ hi

/-- C7 — For every forecast step `i`, the ensemble point forecast equals the
arithmetic mean (equal weights, no other weighting) of the three predictor
outputs at step `i`, and the response's per-step `predicted_price` is exactly
the 2-decimal rounding of that mean. -/
theorem C7_ensemble_is_mean (symbol : String) (days : ℕ) (prices : List ℝ)
    (last_date : ℕ) (o : PredictorOracles) (i : ℕ)
    (h50 : 50 ≤ prices.length) (hcur : pyLast prices ≠ 0) (hi : i < days) :
    (ensemble_predictions_of o prices days).getD i 0
      = ((predictor_run o.ar prices days).getD i 0
          + (predictor_run o.lr prices days).getD i 0
          + (predictor_run o.arima prices days).getD i 0) / 3 ∧
    predict_prices symbol days prices last_date o
      = .ok (assemble_response symbol days prices last_date o) ∧
    ((assemble_response symbol days prices last_date o).predictions.getD i
        default).predicted_price
      = round2 ((ensemble_predictions_of o prices days).getD i 0) := by
  refine ⟨ensemble_predictions_of_getD o prices days i hi,
    predict_prices_eq_ok symbol days prices last_date o h50 hcur, ?_⟩
  rw [assemble_response_predictions_getD symbol days prices last_date o i hi]
  rfl

/-- Witness for C7 at a concrete 50-point series, horizon 2, step 0, all
predictors failed. -/
theorem C7_ensemble_is_mean_witness :
    50 ≤ (List.replicate 50 (100 : ℝ)).length ∧
    pyLast (List.replicate 50 (100 : ℝ)) ≠ 0 ∧ (0 : ℕ) < 2 ∧
    ((ensemble_predictions_of ⟨none, none, none⟩ (List.replicate 50 (100 : ℝ)) 2).getD 0 0
      = ((predictor_run none (List.replicate 50 (100 : ℝ)) 2).getD 0 0
          + (predictor_run none (List.replicate 50 (100 : ℝ)) 2).getD 0 0
          + (predictor_run none (List.replicate 50 (100 : ℝ)) 2).getD 0 0) / 3 ∧
    predict_prices "AAPL" 2 (List.replicate 50 (100 : ℝ)) 0 ⟨none, none, none⟩
      = .ok (assemble_response "AAPL" 2 (List.replicate 50 (100 : ℝ)) 0 ⟨none, none, none⟩) ∧
    ((assemble_response "AAPL" 2 (List.replicate 50 (100 : ℝ)) 0
        ⟨none, none, none⟩).predictions.getD 0 default).predicted_price
      = round2 ((ensemble_predictions_of ⟨none, none, none⟩
          (List.replicate 50 (100 : ℝ)) 2).getD 0 0)) :=
  ⟨by simp, by simp only [pyLast_replicate_50]; norm_num, by decide,
    C7_ensemble_is_mean "AAPL" 2 (List.replicate 50 (100 : ℝ)) 0 ⟨none, none, none⟩ 0
      (by simp) (by simp only [pyLast_replicate_50]; norm_num) (by decide)⟩

/-- Rounding to two decimals moves a value by at most 1/200. -/
theorem abs_sub_round2 (x : ℝ) : |x - round2 x| ≤ 1 / 200 := by
  unfold round2
  have h := abs_sub_round (100 * x)
  have heq : x - (round (100 * x) : ℤ) / 100
      = (100 * x - (round (100 * x) : ℤ)) / 100 := by ring
  rw [heq, abs_div, abs_of_pos (show (0 : ℝ) < 100 by norm_num)]
  linarith

/-- C8 — For every forecast step `i`, `change_from_current` is the 2-decimal
rounding of `predicted_price[i] - current_price` and `change_percent` the
2-decimal rounding of that difference over `current_price` times 100, with
`current_price` the last value of the input series, so
`predicted_price[i] - change_from_current[i]` recovers `current_price` to
within the rounding tolerance 1/200. -/
theorem C8_change_fields (symbol : String) (days : ℕ) (prices : List ℝ)
    (last_date : ℕ) (o : PredictorOracles) (i : ℕ)
    (h50 : 50 ≤ prices.length) (hcur : pyLast prices ≠ 0) (hi : i < days) :
    predict_prices symbol days prices last_date o
      = .ok (assemble_response symbol days prices last_date o) ∧
    ((assemble_response symbol days prices last_date o).predictions.getD i
        default).change_from_current
      = round2 (((assemble_response symbol days prices last_date o).predictions.getD i
          default).predicted_price - pyLast prices) ∧
    ((assemble_response symbol days prices last_date o).predictions.getD i
        default).change_percent
      = round2 ((((assemble_response symbol days prices last_date o).predictions.getD i
          default).predicted_price - pyLast prices) / pyLast prices * 100) ∧
    |((assemble_response symbol days prices last_date o).predictions.getD i
          default).predicted_price
        - ((assemble_response symbol days prices last_date o).predictions.getD i
            default).change_from_current
        - pyLast prices| ≤ 1 / 200 := by
  refine ⟨predict_prices_eq_ok symbol days prices last_date o h50 hcur, ?_, ?_, ?_⟩ <;>
    rw [assemble_response_predictions_getD symbol days prices last_date o i hi]
  · rfl
  · rfl
  · have h := abs_sub_round2
      (round2 ((ensemble_predictions_of o prices days).getD i 0) - pyLast prices)
    have heq : (mk_prediction_data (pyLast prices)
          ((backend_future_dates last_date days).getD i 0)
          ((ensemble_predictions_of o prices days).getD i 0)
          ((calculate_confidence_intervals prices
              (ensemble_predictions_of o prices days)).getD i (0, 0)).1
          ((calculate_confidence_intervals prices
              (ensemble_predictions_of o prices days)).getD i (0, 0)).2).predicted_price
        - (mk_prediction_data (pyLast prices)
          ((backend_future_dates last_date days).getD i 0)
          ((ensemble_predictions_of o prices days).getD i 0)
          ((calculate_confidence_intervals prices
              (ensemble_predictions_of o prices days)).getD i (0, 0)).1
          ((calculate_confidence_intervals prices
              (ensemble_predictions_of o prices days)).getD i (0, 0)).2).change_from_current
        - pyLast prices
      = (round2 ((ensemble_predictions_of o prices days).getD i 0) - pyLast prices)
        - round2 (round2 ((ensemble_predictions_of o prices days).getD i 0)
            - pyLast prices) := by
      show round2 ((ensemble_predictions_of o prices days).getD i 0)
          - round2 (round2 ((ensemble_predictions_of o prices days).getD i 0)
              - pyLast prices) - pyLast prices = _
      ring
    rw [heq]
    exact h

/-- Witness for C8 at a concrete 50-point series, horizon 1, step 0. -/
theorem C8_change_fields_witness :
    50 ≤ (List.replicate 50 (100 : ℝ)).length ∧
    pyLast (List.replicate 50 (100 : ℝ)) ≠ 0 ∧ (0 : ℕ) < 1 ∧
    |((assemble_response "TSLA" 1 (List.replicate 50 (100 : ℝ)) 0
          ⟨none, none, none⟩).predictions.getD 0 default).predicted_price
        - ((assemble_response "TSLA" 1 (List.replicate 50 (100 : ℝ)) 0
            ⟨none, none, none⟩).predictions.getD 0 default).change_from_current
        - pyLast (List.replicate 50 (100 : ℝ))| ≤ 1 / 200 :=
  ⟨by simp, by simp only [pyLast_replicate_50]; norm_num, by decide,
    (C8_change_fields "TSLA" 1 (List.replicate 50 (100 : ℝ)) 0 ⟨none, none, none⟩ 0
      (by simp) (by simp only [pyLast_replicate_50]; norm_num) (by decide)).2.2.2⟩

/-- C9 — For every series of at least 50 observations, the accuracy metrics
satisfy: `recent_volatility_percent` is the 2-decimal rounding of
`stddev(last 30 prices) / mean(last 30 prices) × 100` (population standard
deviation over the trailing 30-element window), `trend_direction` is
`"upward"` exactly when the last price strictly exceeds the price 30
observations back (the first price of that trailing window, `prices[-30]`)
and `"downward"` otherwise, and `data_points_used` is the length of the
input series. -/
theorem C9_accuracy_metrics (prices : List ℝ) (h50 : 50 ≤ prices.length) :
    calculate_accuracy_metrics prices =
      { recent_volatility_percent := round2 (Real.sqrt
          ((((prices.drop (prices.length - 30)).map fun x =>
              (x - (prices.drop (prices.length - 30)).sum / 30) ^ 2).sum) / 30)
          / ((prices.drop (prices.length - 30)).sum / 30) * 100)
        trend_direction :=
          if prices.getD (prices.length - 1) 0 > prices.getD (prices.length - 30) 0
          then "upward" else "downward"
        data_points_used := prices.length } := by
  have hw : (pySliceLast 30 prices).length = 30 :=
    length_pySliceLast 30 prices (by omega)
  unfold calculate_accuracy_metrics
  rw [npStd_eq]
  unfold npMean
  rw [hw]
  unfold pySliceLast
  norm_num
  unfold pyIdxNeg pyLast
  simp [List.getD_eq_getElem?_getD]

/-- Witness for C9 at a concrete 50-point series. -/
theorem C9_accuracy_metrics_witness :
    50 ≤ (List.replicate 50 (100 : ℝ)).length ∧
    calculate_accuracy_metrics (List.replicate 50 (100 : ℝ)) =
      { recent_volatility_percent := round2 (Real.sqrt
          (((((List.replicate 50 (100 : ℝ)).drop
                ((List.replicate 50 (100 : ℝ)).length - 30)).map fun x =>
              (x - ((List.replicate 50 (100 : ℝ)).drop
                  ((List.replicate 50 (100 : ℝ)).length - 30)).sum / 30) ^ 2).sum) / 30)
          / (((List.replicate 50 (100 : ℝ)).drop
              ((List.replicate 50 (100 : ℝ)).length - 30)).sum / 30) * 100)
        trend_direction :=
          if (List.replicate 50 (100 : ℝ)).getD ((List.replicate 50 (100 : ℝ)).length - 1) 0
              > (List.replicate 50 (100 : ℝ)).getD ((List.replicate 50 (100 : ℝ)).length - 30) 0
          then "upward" else "downward"
        data_points_used := (List.replicate 50 (100 : ℝ)).length } :=
  ⟨by simp, C9_accuracy_metrics (List.replicate 50 (100 : ℝ)) (by simp)⟩

/-- C10 — For every forecast step, before the 2-decimal rounding the
confidence interval is symmetric about the point forecast
(`upper - predicted = predicted - lower`) in both implementations, and
consequently `lower ≤ predicted ≤ upper` whenever the ensemble prediction at
that step is nonnegative. -/
theorem C10_interval_symmetry (hist preds : List ℝ) (i : ℕ)
    (hi : i < preds.length) :
    (((calculate_confidence_intervals hist preds).getD i (0, 0)).2 - preds.getD i 0
      = preds.getD i 0 - ((calculate_confidence_intervals hist preds).getD i (0, 0)).1) ∧
    (0 ≤ preds.getD i 0 →
      ((calculate_confidence_intervals hist preds).getD i (0, 0)).1 ≤ preds.getD i 0 ∧
      preds.getD i 0 ≤ ((calculate_confidence_intervals hist preds).getD i (0, 0)).2) ∧
    (((calculate_confidence_intervals_svc hist preds).getD i (0, 0)).2 - preds.getD i 0
      = preds.getD i 0
        - ((calculate_confidence_intervals_svc hist preds).getD i (0, 0)).1) ∧
    (0 ≤ preds.getD i 0 →
      ((calculate_confidence_intervals_svc hist preds).getD i (0, 0)).1
          ≤ preds.getD i 0 ∧
      preds.getD i 0
          ≤ ((calculate_confidence_intervals_svc hist preds).getD i (0, 0)).2) := by
  have hvol : 0 ≤ npStd (returnsOf hist) := Real.sqrt_nonneg _
  have hsq : 0 ≤ Real.sqrt ((i : ℝ) + 1) := Real.sqrt_nonneg _
  rw [calculate_confidence_intervals_getD hist preds i hi,
      calculate_confidence_intervals_svc_getD hist preds i hi]
  dsimp only
  refine ⟨by ring, fun hp => ?_, by ring, fun hp => ?_⟩ <;>
    have hu : 0 ≤ npStd (returnsOf hist) * Real.sqrt ((i : ℝ) + 1) * preds.getD i 0 :=
      mul_nonneg (mul_nonneg hvol hsq) hp
  · constructor <;> nlinarith [hu]
  · constructor <;> nlinarith [hu]

/-- Witness for C10 at history `[1, 2]`, predictions `[0]`, step 0. -/
theorem C10_interval_symmetry_witness :
    (0 : ℕ) < ([0] : List ℝ).length ∧
    ((((calculate_confidence_intervals [1, 2] [0]).getD 0 (0, 0)).2
          - ([0] : List ℝ).getD 0 0
      = ([0] : List ℝ).getD 0 0
          - ((calculate_confidence_intervals [1, 2] [0]).getD 0 (0, 0)).1) ∧
    (0 ≤ ([0] : List ℝ).getD 0 0 →
      ((calculate_confidence_intervals [1, 2] [0]).getD 0 (0, 0)).1
          ≤ ([0] : List ℝ).getD 0 0 ∧
      ([0] : List ℝ).getD 0 0
          ≤ ((calculate_confidence_intervals [1, 2] [0]).getD 0 (0, 0)).2) ∧
    (((calculate_confidence_intervals_svc [1, 2] [0]).getD 0 (0, 0)).2
          - ([0] : List ℝ).getD 0 0
      = ([0] : List ℝ).getD 0 0
          - ((calculate_confidence_intervals_svc [1, 2] [0]).getD 0 (0, 0)).1) ∧
    (0 ≤ ([0] : List ℝ).getD 0 0 →
      ((calculate_confidence_intervals_svc [1, 2] [0]).getD 0 (0, 0)).1
          ≤ ([0] : List ℝ).getD 0 0 ∧
      ([0] : List ℝ).getD 0 0
          ≤ ((calculate_confidence_intervals_svc [1, 2] [0]).getD 0 (0, 0)).2)) :=
  ⟨by decide, C10_interval_symmetry [1, 2] [0] 0 (by decide)⟩
